import Mathlib

/-!
Verification development for a remote-SSH filesystem server.

The embedding below models, from the source:
  - the POSIX lexical normalization used on candidate paths
    (`os.path.normpath`), as `normpath`;
  - pure POSIX path objects (`pathlib.PurePosixPath`) as `PurePosixPath`,
    with parsing (`parsePath`), rendering (`pathToStr`) and joining
    (`pathJoin`);
  - the path-confinement check `RemoteSSHFileSystemManager._validate_path`
    as `validate_path`;
  - the remote calls issued by each filesystem operation, as trace
    functions (`remote_read_file_calls`, ...);
  - the session state machine (`remote_connect` / `remote_close`);
  - the startup configuration check of `main` as `validateConfig`;
  - the resource identifier construction and extraction of the
    dispatcher (`resourceUri`, `readResourcePath`).
-/

/-- The POSIX path separator character. -/
def slash : Char := Char.ofNat 47

/-- Model of Python string method startswith: codepoint-level prefix test. -/
def pyStartsWith (s pre : String) : Bool :=
  pre.data.isPrefixOf s.data

/-- Split a character list on a separator character, keeping empty pieces,
exactly as Python str.split with a one-character separator does. -/
def splitChar (sep : Char) : List Char → List (List Char)
  | [] => [[]]
  | c :: cs =>
    if c = sep then [] :: splitChar sep cs
    else
      match splitChar sep cs with
      | [] => [[c]]
      | h :: t => (c :: h) :: t

/-- Model of Python s.split on the path separator. -/
def splitSlash (s : String) : List String :=
  (splitChar slash s.data).map String.mk

/-- The component loop of posixpath.normpath: drops empty and dot
components, pops a previous component on a dot-dot component unless the
path is relative with nothing accumulated or the previous component is
itself a dot-dot. -/
def normpathComps (initialSlashes : Nat) (comps : List String) : List String :=
  comps.foldl
    (fun newComps comp =>
      if comp = "" ∨ comp = "." then newComps
      else if comp ≠ ".." ∨ (initialSlashes = 0 ∧ newComps = []) ∨
          newComps.getLast? = some ".." then
        newComps ++ [comp]
      else if newComps ≠ [] then newComps.dropLast
      else newComps)
    []

/-- Model of os.path.normpath (POSIX flavour): lexical normalization that
collapses separators, removes dot components and resolves dot-dot
components against preceding ones, keeping leading dot-dot components of a
relative path. -/
def normpath (path : String) : String :=
  if path = "" then "."
  else
    let initialSlashes : Nat :=
      if pyStartsWith path "/" then
        if pyStartsWith path "//" ∧ ¬ pyStartsWith path "///" then 2 else 1
      else 0
    let comps := splitSlash path
    let newComps := normpathComps initialSlashes comps
    let joined := String.intercalate "/" newComps
    let result := String.mk (List.replicate initialSlashes slash) ++ joined
    if result = "" then "." else result

/-- Model of pathlib.PurePosixPath: a parsed POSIX path, root (empty for a
relative path, one slash for an absolute path, two slashes for the POSIX
double-slash special case) plus the non-empty, non-dot components. -/
structure PurePosixPath where
  root : String
  parts : List String
deriving DecidableEq

/-- The root recognized by PurePosixPath parsing. -/
def parseRoot (s : String) : String :=
  if pyStartsWith s "/" then
    if pyStartsWith s "//" ∧ ¬ pyStartsWith s "///" then "//" else "/"
  else ""

/-- The components recognized by PurePosixPath parsing: split on the
separator, drop empty and dot pieces (dot-dot pieces are kept). -/
def parseParts (s : String) : List String :=
  (splitSlash s).filter (fun c => c != "" && c != ".")

/-- Model of the PurePosixPath constructor on a string. -/
def parsePath (s : String) : PurePosixPath :=
  ⟨parseRoot s, parseParts s⟩

/-- Model of str applied to a PurePosixPath. -/
def pathToStr (p : PurePosixPath) : String :=
  if p.root = "" ∧ p.parts = [] then "."
  else p.root ++ String.intercalate "/" p.parts

/-- Model of the PurePosixPath slash operator with a string right operand:
parse the operand; if it is absolute it replaces the left path, otherwise
its components are appended. -/
def pathJoin (b : PurePosixPath) (s : String) : PurePosixPath :=
  let q := parsePath s
  if q.root = "" then ⟨b.root, b.parts ++ q.parts⟩ else q

/-- Model of RemoteSSHFileSystemManager._validate_path on a string
argument: relative candidates are normalized with normpath and joined onto
the base path, absolute candidates are parsed as they are; the confined
path is accepted when its string form has the string form of the base path
as a textual prefix, and rejected with a ValueError otherwise. -/
def validate_path (basePath : PurePosixPath) (path : String) :
    Except String PurePosixPath :=
  let fullPath : PurePosixPath :=
    if ¬ pyStartsWith path "/" then pathJoin basePath (normpath path)
    else parsePath path
  if ¬ pyStartsWith (pathToStr fullPath) (pathToStr basePath) then
    Except.error ("Invalid path: Access denied. Path must be within " ++
      pathToStr basePath)
  else Except.ok fullPath

/-- The remote calls an operation can issue over the session. -/
inductive RemoteCall
  | connect
  | sftpGetFo (path : String)
  | sftpPutFo (path : String)
  | sftpListDirAttr (path : String)
  | sftpStat (path : String)
  | execCommand (cmd : String)
deriving DecidableEq

/-- Remote calls issued by RemoteSSHFileSystemManager.remote_read_file:
connect, then validate, then fetch the file; on a validation error the
exception propagates and no file-transfer call is issued. -/
def remote_read_file_calls (basePath : PurePosixPath) (path : String) :
    List RemoteCall :=
  RemoteCall.connect ::
    match validate_path basePath path with
    | Except.error _ => []
    | Except.ok fullPath => [RemoteCall.sftpGetFo (pathToStr fullPath)]

/-- Remote calls issued by RemoteSSHFileSystemManager.remote_write_file:
connect, then validate, then upload. -/
def remote_write_file_calls (basePath : PurePosixPath) (path : String) :
    List RemoteCall :=
  RemoteCall.connect ::
    match validate_path basePath path with
    | Except.error _ => []
    | Except.ok fullPath => [RemoteCall.sftpPutFo (pathToStr fullPath)]

/-- Remote calls issued by RemoteSSHFileSystemManager.remote_list_directory:
connect, then either use the base path directly when the path argument is
empty, or validate the path; then list the directory attributes. -/
def remote_list_directory_calls (basePath : PurePosixPath) (path : String) :
    List RemoteCall :=
  RemoteCall.connect ::
    (if path = "" then [RemoteCall.sftpListDirAttr (pathToStr basePath)]
     else
       match validate_path basePath path with
       | Except.error _ => []
       | Except.ok fullPath => [RemoteCall.sftpListDirAttr (pathToStr fullPath)])

/-- The find command string built by remote_search_files. -/
def findCommand (baseDir pattern : String) : String :=
  "find " ++ baseDir ++ " -name \x27*" ++ pattern ++ "*\x27 -type f -o -name \x27*" ++
    pattern ++ "*\x27 -type d 2>/dev/null"

/-- Remote calls issued by RemoteSSHFileSystemManager.remote_search_files:
the search root is the raw path argument when non-empty (the base path
otherwise); the find command is sent over an exec channel, then each
non-blank line of its output is stat-ed. No validation is performed. -/
def remote_search_files_calls (basePath : PurePosixPath)
    (pattern path : String) (outputLines : List String) : List RemoteCall :=
  let baseDir := if path ≠ "" then path else pathToStr basePath
  RemoteCall.connect :: RemoteCall.execCommand (findCommand baseDir pattern) ::
    (outputLines.filter (fun l => l.trim ≠ "")).map RemoteCall.sftpStat

/-- The two buffered streams and the exit status of one remote command
execution, as offered by the transport. -/
structure ExecChannels where
  stdoutText : String
  stderrText : String
  exitStatus : Nat
deriving DecidableEq

/-- Model of RemoteSSHFileSystemManager.remote_execute_command: connect,
send the command over an exec channel, read both streams fully and return
them; the exit status is never requested. The remote side is modeled as a
function from command strings to channel contents. -/
def remote_execute_command (world : String → ExecChannels) (command : String) :
    (String × String) × List RemoteCall :=
  (((world command).stdoutText, (world command).stderrText),
    [RemoteCall.connect, RemoteCall.execCommand command])

/-- Model of a paramiko transport: only its activity matters here. -/
structure Transport where
  isActive : Bool
deriving DecidableEq

/-- Model of a paramiko SSHClient: it has a transport once a connection
attempt has been made and that transport survived. -/
structure SSHClient where
  transport : Option Transport
deriving DecidableEq

/-- The manager's session state: the two handle attributes, each possibly
None. The file-transfer sub-channel is modeled by its presence. -/
structure ManagerState where
  sshClient : Option SSHClient
  sftpClient : Option Unit
deriving DecidableEq

/-- The fresh state set up by the constructor: both handles are None. -/
def initialState : ManagerState := ⟨none, none⟩

/-- The guard of remote_connect: the client exists, has a transport, and
that transport is active. The sub-channel is not consulted. -/
def connectGuard (s : ManagerState) : Bool :=
  match s.sshClient with
  | none => false
  | some client =>
    match client.transport with
    | none => false
    | some t => t.isActive

/-- The possible outcomes of one connection attempt: the SSH connect call
fails, the connect succeeds but opening the file-transfer sub-channel
fails, or both succeed. -/
inductive ConnectOutcome
  | authFail
  | sftpFail
  | ok
deriving DecidableEq

/-- Model of RemoteSSHFileSystemManager.remote_connect: a no-op when the
guard holds; otherwise a fresh client is stored, connect is attempted and
then the sub-channel is opened, each step possibly raising (the returned
Bool tells whether an exception propagated). A failing step leaves the
previous sub-channel attribute untouched. -/
def remote_connect (s : ManagerState) (o : ConnectOutcome) :
    ManagerState × Bool :=
  if connectGuard s then (s, false)
  else
    match o with
    | ConnectOutcome.authFail => (⟨some ⟨none⟩, s.sftpClient⟩, true)
    | ConnectOutcome.sftpFail => (⟨some ⟨some ⟨true⟩⟩, s.sftpClient⟩, true)
    | ConnectOutcome.ok => (⟨some ⟨some ⟨true⟩⟩, some ()⟩, false)

/-- The teardown steps remote_close can perform. -/
inductive TeardownEvent
  | closeSftp
  | closeSsh
deriving DecidableEq

/-- Model of RemoteSSHFileSystemManager.remote_close: close and clear the
sub-channel if present, then close and clear the client if present,
returning the new state and the teardown steps performed in order. -/
def remote_close (s : ManagerState) : ManagerState × List TeardownEvent :=
  let step1 : List TeardownEvent × ManagerState :=
    match s.sftpClient with
    | some _ => ([TeardownEvent.closeSftp], ⟨s.sshClient, none⟩)
    | none => ([], s)
  let step2 : List TeardownEvent × ManagerState :=
    match step1.2.sshClient with
    | some _ => ([TeardownEvent.closeSsh], ⟨none, step1.2.sftpClient⟩)
    | none => ([], step1.2)
  (step2.2, step1.1 ++ step2.1)

/-- The startup configuration assembled by main from the command line or a
JSON file. Missing values are None. -/
structure SSHConfig where
  hostname : Option String
  port : Nat
  username : Option String
  password : Option String
  key_filename : Option String
  base_path : String
deriving DecidableEq

/-- Python truthiness of an optional string: present and non-empty. -/
def truthy : Option String → Bool
  | none => false
  | some s => s != ""

/-- Model of the required-field checks of main: hostname, then username,
then at least one of password and key_filename must be truthy. -/
def validateConfig (c : SSHConfig) : Except String Unit :=
  if ¬ truthy c.hostname then
    Except.error "SSH 호스트명이 필요합니다. --hostname 또는 --config 옵션을 사용하세요."
  else if ¬ truthy c.username then
    Except.error "SSH 사용자 이름이 필요합니다. --username 옵션을 사용하세요."
  else if ¬ truthy c.password ∧ ¬ truthy c.key_filename then
    Except.error "SSH 비밀번호 또는 키 파일이 필요합니다. --password 또는 --key-file 옵션을 사용하세요."
  else Except.ok ()

/-- A directory entry as produced by the listing operation; only the
fields used by the dispatcher are modeled. -/
structure DirEntry where
  name : String
  path : String
  isDir : Bool
deriving DecidableEq

/-- The resource identifier built by list_resources for one entry. -/
def resourceUri (hostname p : String) : String :=
  "ssh://" ++ hostname ++ "/" ++ p

/-- The identifiers of all resources listed by list_resources. -/
def listResourceUris (hostname : String) (items : List DirEntry) :
    List String :=
  items.map (fun item => resourceUri hostname item.path)

/-- The loop of Python str.split with a character separator and a maximum
number of splits: pieces are accumulated in reverse; once the split budget
is exhausted every remaining character, separators included, goes into the
final piece. -/
def pySplitGo (sep : Char) : List Char → Nat → List Char → List String
  | [], _, acc => [String.mk acc.reverse]
  | c :: cs, n, acc =>
    if c = sep then
      match n with
      | 0 => pySplitGo sep cs 0 (c :: acc)
      | Nat.succ m => String.mk acc.reverse :: pySplitGo sep cs m []
    else pySplitGo sep cs n (c :: acc)

/-- Model of Python s.split with a character separator and maxsplit. -/
def pySplit (s : String) (sep : Char) (maxsplit : Nat) : List String :=
  pySplitGo sep s.data maxsplit []

/-- Model of Python s.count with a character argument. -/
def countChar (s : String) (c : Char) : Nat :=
  s.data.count c

/-- The path extraction of read_resource: when the identifier holds at
least three separators, everything after the third one; the empty string
otherwise. -/
def readResourcePath (uri : String) : String :=
  if 3 ≤ countChar uri slash then (pySplit uri slash 3).getD 3 ""
  else ""

/-- Remote calls issued by read_resource: it delegates to remote_read_file
on the extracted path. -/
def readResourceCalls (basePath : PurePosixPath) (uri : String) :
    List RemoteCall :=
  remote_read_file_calls basePath (readResourcePath uri)

/-- Appending strings appends their character data. -/
theorem data_append (a b : String) : (a ++ b).data = a.data ++ b.data := rfl

/-- Rebuilding a string from its character data gives it back. -/
theorem mk_data (s : String) : String.mk s.data = s := rfl

/-- The empty character list builds the empty string. -/
theorem mk_nil : String.mk [] = "" := rfl

/-- Every character list is a prefix of itself. -/
theorem isPrefixOf_self (l : List Char) : l.isPrefixOf l = true := by
  induction l with
  | nil => rfl
  | cons c cs ih => simp [List.isPrefixOf, ih]

/-- Every string starts with itself. -/
theorem pyStartsWith_self (s : String) : pyStartsWith s s = true := by
  unfold pyStartsWith
  exact isPrefixOf_self s.data

/-- Joining a dot onto a path gives the path back. -/
theorem pathJoin_dot (b : PurePosixPath) : pathJoin b "." = b := by
  obtain ⟨br, bp⟩ := b
  simp [pathJoin, show parsePath "." = ⟨"", []⟩ from rfl]

/-- With an exhausted split budget the split loop returns one piece made
of the accumulator and all remaining characters. -/
theorem pySplitGo_zero (sep : Char) (cs : List Char) :
    ∀ acc, pySplitGo sep cs 0 acc = [String.mk (acc.reverse ++ cs)] := by
  induction cs with
  | nil => intro acc; simp [pySplitGo]
  | cons c cs ih =>
    intro acc
    by_cases h : c = sep
    · simp [pySplitGo, h, ih, List.reverse_cons, List.append_assoc]
    · simp [pySplitGo, h, ih, List.reverse_cons, List.append_assoc]

/-- The split loop consumes a separator-free block into the accumulator. -/
theorem pySplitGo_no_sep (sep : Char) :
    ∀ pre : List Char, sep ∉ pre →
      ∀ (rest acc : List Char) (n : Nat),
        pySplitGo sep (pre ++ rest) n acc =
          pySplitGo sep rest n (pre.reverse ++ acc) := by
  intro pre
  induction pre with
  | nil => intro _ rest acc n; simp
  | cons c cs ih =>
    intro h rest acc n
    have hc : ¬ c = sep := by
      intro hcs
      subst hcs
      exact h (List.mem_cons_self c cs)
    have h2 : sep ∉ cs := fun hm => h (List.mem_cons_of_mem c hm)
    calc pySplitGo sep (c :: cs ++ rest) n acc
        = pySplitGo sep (cs ++ rest) n (c :: acc) := by simp [pySplitGo, hc]
      _ = pySplitGo sep rest n (cs.reverse ++ (c :: acc)) := ih h2 rest (c :: acc) n
      _ = pySplitGo sep rest n ((c :: cs).reverse ++ acc) := by
          simp [List.reverse_cons, List.append_assoc]

/-- With split budget left, the split loop emits the accumulated piece at
a separator. -/
theorem pySplitGo_sep_succ (sep : Char) (cs acc : List Char) (m : Nat) :
    pySplitGo sep (sep :: cs) (Nat.succ m) acc =
      String.mk acc.reverse :: pySplitGo sep cs m [] := by
  simp [pySplitGo]

/-- The character data of a built resource identifier. -/
theorem uri_data (host p : String) :
    (resourceUri host p).data =
      "ssh:".data ++ (slash :: slash :: (host.data ++ slash :: p.data)) := by
  have e1 : (resourceUri host p).data =
      "ssh://".data ++ (host.data ++ ("/".data ++ p.data)) := by
    simp only [resourceUri, data_append, List.append_assoc]
  rw [e1, show "ssh://".data = "ssh:".data ++ [slash, slash] from by decide,
    show "/".data = [slash] from by decide]
  simp only [List.append_assoc, List.cons_append, List.nil_append]

/-- Splitting a built resource identifier on the separator with budget
three yields the scheme piece, an empty piece, the host and the path. -/
theorem pySplit_resourceUri (host p : String) (h : slash ∉ host.data) :
    pySplit (resourceUri host p) slash 3 = ["ssh:", "", host, p] := by
  show pySplitGo slash (resourceUri host p).data 3 [] = _
  rw [uri_data host p]
  rw [pySplitGo_no_sep slash "ssh:".data (by decide)]
  rw [show (3 : Nat) = Nat.succ 2 from rfl, pySplitGo_sep_succ]
  rw [show (2 : Nat) = Nat.succ 1 from rfl, pySplitGo_sep_succ]
  rw [pySplitGo_no_sep slash host.data h]
  rw [show (1 : Nat) = Nat.succ 0 from rfl, pySplitGo_sep_succ]
  rw [pySplitGo_zero]
  simp [mk_data, mk_nil]

/-- Extracting the path from a built resource identifier for a host
without separators recovers the path. -/
theorem readResource_extract (host p : String) (h : slash ∉ host.data) :
    readResourcePath (resourceUri host p) = p := by
  have hcount : 3 ≤ countChar (resourceUri host p) slash := by
    unfold countChar
    rw [uri_data host p, List.count_append,
      show List.count slash "ssh:".data = 0 from by decide]
    have hh : List.count slash host.data = 0 := List.count_eq_zero.mpr h
    simp [List.count_append, List.count_cons, hh]
  unfold readResourcePath
  rw [if_pos hcount, pySplit_resourceUri host p h]
  rfl

/-- Claim C1 (counterexample): with root /a, the absolute candidate /ab is
accepted by path confinement although its string form neither equals the
root string nor extends it at a component boundary. -/
theorem validate_path_sibling_accepted :
    validate_path ⟨"/", ["a"]⟩ "/ab" = Except.ok ⟨"/", ["ab"]⟩ ∧
    pathToStr ⟨"/", ["ab"]⟩ ≠ pathToStr ⟨"/", ["a"]⟩ ∧
    pyStartsWith (pathToStr ⟨"/", ["ab"]⟩) (pathToStr ⟨"/", ["a"]⟩ ++ "/") =
      false :=
  ⟨rfl, by decide, rfl⟩

/-- Claim C1 (amended): whenever path confinement succeeds, the string
form of the confined path has the string form of the root as a plain
textual prefix; the prefix need not end at a path-component boundary. -/
theorem validate_path_ok_startsWithRoot (base : PurePosixPath) (p : String)
    (r : PurePosixPath) (h : validate_path base p = Except.ok r) :
    pyStartsWith (pathToStr r) (pathToStr base) = true := by
  simp only [validate_path] at h
  split at h
  · split at h
    · exact absurd h (by simp)
    · rename_i hcond
      rw [Except.ok.injEq] at h
      subst h
      exact of_not_not hcond
  · split at h
    · exact absurd h (by simp)
    · rename_i hcond
      rw [Except.ok.injEq] at h
      subst h
      exact of_not_not hcond

/-- Claim C1 (witness for the amended theorem). -/
theorem validate_path_ok_startsWithRoot_witness :
    pyStartsWith (pathToStr ⟨"/", ["a", "b"]⟩) (pathToStr ⟨"/", ["a"]⟩) =
      true :=
  validate_path_ok_startsWithRoot ⟨"/", ["a"]⟩ "/a/b" ⟨"/", ["a", "b"]⟩ rfl

/-- Claim C2: remote_search_files issues its find command on the raw path
argument without applying path confinement; at root /data and search path
/etc, confinement would reject, yet the exec call for find /etc is
issued. -/
theorem searchFiles_issues_find_without_confinement :
    validate_path ⟨"/", ["data"]⟩ "/etc" =
      Except.error "Invalid path: Access denied. Path must be within /data" ∧
    remote_search_files_calls ⟨"/", ["data"]⟩ "x" "/etc" [] =
      [RemoteCall.connect,
        RemoteCall.execCommand
          "find /etc -name \x27*x*\x27 -type f -o -name \x27*x*\x27 -type d 2>/dev/null"] :=
  ⟨rfl, rfl⟩

/-- Claim C3 (counterexample): with root /a, the relative candidate
../etc survives normalization with its leading dot-dot segment, joins to
the string /a/../etc which passes the textual prefix check and is
accepted, although its lexical resolution /etc lies outside the root. -/
theorem validate_path_dotdot_escape_accepted :
    validate_path ⟨"/", ["a"]⟩ "../etc" =
      Except.ok ⟨"/", ["a", "..", "etc"]⟩ ∧
    pathToStr ⟨"/", ["a", "..", "etc"]⟩ = "/a/../etc" ∧
    normpath "/a/../etc" = "/etc" ∧
    pyStartsWith "/etc" (pathToStr ⟨"/", ["a"]⟩) = false :=
  ⟨rfl, rfl, rfl, rfl⟩

/-- Claim C3 (amended): every relative candidate accepted by path
confinement was first lexically normalized with normpath and then joined
onto the root; normpath resolves interior dot-dot segments but keeps
leading ones, and the containment check runs on the joined, unresolved
string. -/
theorem validate_path_relative_normalize_join (base : PurePosixPath)
    (p : String) (r : PurePosixPath) (habs : pyStartsWith p "/" = false)
    (h : validate_path base p = Except.ok r) :
    r = pathJoin base (normpath p) := by
  simp only [validate_path, habs] at h
  split at h
  · split at h
    · exact absurd h (by simp)
    · rw [Except.ok.injEq] at h
      exact h.symm
  · rename_i hcontra
    exact absurd (of_not_not hcontra) (by simp)

/-- Claim C3 (witness for the amended theorem). -/
theorem validate_path_relative_normalize_join_witness :
    (⟨"/", ["a", "b"]⟩ : PurePosixPath) = pathJoin ⟨"/", ["a"]⟩ (normpath "b") :=
  validate_path_relative_normalize_join ⟨"/", ["a"]⟩ "b" ⟨"/", ["a", "b"]⟩
    rfl rfl

/-- Claim C4 (counterexample): after one connection attempt from the
fresh state in which opening the file-transfer sub-channel fails, the
session holds an active transport and no sub-channel, and a further
remote_connect is a no-op in that state. -/
theorem remote_connect_noop_without_sftp :
    (remote_connect initialState ConnectOutcome.sftpFail).1 =
      ⟨some ⟨some ⟨true⟩⟩, none⟩ ∧
    connectGuard ⟨some ⟨some ⟨true⟩⟩, none⟩ = true ∧
    (⟨some ⟨some ⟨true⟩⟩, none⟩ : ManagerState).sftpClient = none ∧
    remote_connect ⟨some ⟨some ⟨true⟩⟩, none⟩ ConnectOutcome.ok =
      (⟨some ⟨some ⟨true⟩⟩, none⟩, false) :=
  ⟨rfl, rfl, rfl, rfl⟩

/-- Claim C4 (amended): remote_connect is a no-op exactly when an active
transport exists, whether or not a sub-channel does; when the guard fails
and both steps succeed it establishes the transport and then the
sub-channel. -/
theorem remote_connect_guard_spec (s : ManagerState) (o : ConnectOutcome) :
    (connectGuard s = true → remote_connect s o = (s, false)) ∧
    (connectGuard s = false →
      remote_connect s ConnectOutcome.ok =
        (⟨some ⟨some ⟨true⟩⟩, some ()⟩, false)) := by
  constructor
  · intro h
    simp [remote_connect, h]
  · intro h
    simp [remote_connect, h]

/-- Claim C4 (witness for the amended theorem). -/
theorem remote_connect_guard_spec_witness :
    remote_connect ⟨some ⟨some ⟨true⟩⟩, some ()⟩ ConnectOutcome.ok =
      (⟨some ⟨some ⟨true⟩⟩, some ()⟩, false) :=
  (remote_connect_guard_spec ⟨some ⟨some ⟨true⟩⟩, some ()⟩
    ConnectOutcome.ok).1 rfl

/-- Claim C5 (counterexample): a configuration supplying both a password
and a key file passes the startup checks. -/
theorem validateConfig_accepts_both_credentials :
    truthy (some "pw") = true ∧ truthy (some "keyfile") = true ∧
    validateConfig ⟨some "host", 22, some "user", some "pw", some "keyfile", "/"⟩ =
      Except.ok () :=
  ⟨rfl, rfl, rfl⟩

/-- Claim C5 (amended): the startup checks succeed exactly when hostname
and username are present and non-empty and at least one of password and
key_filename is present and non-empty; supplying both credentials is
accepted. -/
theorem validateConfig_ok_iff (c : SSHConfig) :
    validateConfig c = Except.ok () ↔
      (truthy c.hostname = true ∧ truthy c.username = true ∧
        (truthy c.password = true ∨ truthy c.key_filename = true)) := by
  unfold validateConfig
  cases hh : truthy c.hostname <;> cases hu : truthy c.username <;>
    cases hp : truthy c.password <;> cases hk : truthy c.key_filename <;>
      simp [hh, hu, hp, hk]

/-- Claim C5 (witness for the amended theorem). -/
theorem validateConfig_ok_iff_witness :
    validateConfig ⟨some "h", 22, some "u", some "p", none, "/"⟩ =
      Except.ok () :=
  (validateConfig_ok_iff ⟨some "h", 22, some "u", some "p", none, "/"⟩).mpr
    ⟨rfl, rfl, Or.inl rfl⟩

/-- Claim C6: the empty path denotes the root: confinement of the empty
candidate yields the base path itself, and listing with an empty path
argument lists the base path directly. -/
theorem validate_path_empty_is_root (base : PurePosixPath) :
    validate_path base "" = Except.ok base ∧
    remote_list_directory_calls base "" =
      [RemoteCall.connect, RemoteCall.sftpListDirAttr (pathToStr base)] := by
  constructor
  · have h1 : pyStartsWith "" "/" = false := rfl
    have h2 : normpath "" = "." := rfl
    simp only [validate_path, h1, h2, pathJoin_dot, pyStartsWith_self]
    simp [pyStartsWith_self]
  · rfl

/-- Claim C7: remote_execute_command connects, issues the verbatim
command over an exec channel with no path confinement, and returns the
two fully buffered streams; the exit status is never requested, so the
result is unchanged under any change of the remote exit status. -/
theorem remote_execute_command_spec (world : String → ExecChannels)
    (command : String) (n : Nat) :
    remote_execute_command world command =
      (((world command).stdoutText, (world command).stderrText),
        [RemoteCall.connect, RemoteCall.execCommand command]) ∧
    remote_execute_command
        (fun c => ⟨(world c).stdoutText, (world c).stderrText, n⟩) command =
      remote_execute_command world command :=
  ⟨rfl, rfl⟩

/-- Claim C8: remote_close always leaves the disconnected state, is a
no-op without an exception on a never-connected or already-closed
session, tears down the sub-channel before the transport, and a
subsequent successful remote_connect re-establishes the full session. -/
theorem remote_close_spec (s : ManagerState) (c : SSHClient) :
    (remote_close s).1 = initialState ∧
    remote_close (remote_close s).1 = (initialState, []) ∧
    remote_close initialState = (initialState, []) ∧
    remote_close ⟨some c, some ()⟩ =
      (initialState, [TeardownEvent.closeSftp, TeardownEvent.closeSsh]) ∧
    remote_connect (remote_close s).1 ConnectOutcome.ok =
      (⟨some ⟨some ⟨true⟩⟩, some ()⟩, false) := by
  obtain ⟨ssh, sftp⟩ := s
  cases ssh <;> cases sftp <;> exact ⟨rfl, rfl, rfl, rfl, rfl⟩

/-- Claim C9: resource identifiers have the form ssh, colon, two
separators, host, separator, entry path; and for a host containing no
separator, the read operation extracts exactly the built path and
delegates to the file read operation on it. -/
theorem resource_uri_roundtrip (basePath : PurePosixPath) (host p : String)
    (items : List DirEntry) (h : slash ∉ host.data) :
    listResourceUris host items =
      items.map (fun item => "ssh://" ++ host ++ "/" ++ item.path) ∧
    readResourcePath (resourceUri host p) = p ∧
    readResourceCalls basePath (resourceUri host p) =
      remote_read_file_calls basePath p := by
  refine ⟨rfl, readResource_extract host p h, ?_⟩
  unfold readResourceCalls
  rw [readResource_extract host p h]

/-- Claim C9 (witness). -/
theorem resource_uri_roundtrip_witness :
    listResourceUris "example.com" [] =
      ([] : List DirEntry).map
        (fun item => "ssh://" ++ "example.com" ++ "/" ++ item.path) ∧
    readResourcePath (resourceUri "example.com" "etc/hosts") = "etc/hosts" ∧
    readResourceCalls ⟨"/", []⟩ (resourceUri "example.com" "etc/hosts") =
      remote_read_file_calls ⟨"/", []⟩ "etc/hosts" :=
  resource_uri_roundtrip ⟨"/", []⟩ "example.com" "etc/hosts" [] (by decide)

/-- Claim C10: an absolute candidate is parsed as it is, with no
normalization applied: confinement checks the textual prefix on the
parsed, unresolved string and returns the parsed path, whose components
keep every dot-dot segment of the raw candidate. -/
theorem validate_path_absolute_unresolved (base : PurePosixPath)
    (p : String) (habs : pyStartsWith p "/" = true) :
    validate_path base p =
      (if ¬ pyStartsWith (pathToStr (parsePath p)) (pathToStr base) then
        Except.error ("Invalid path: Access denied. Path must be within " ++
          pathToStr base)
      else Except.ok (parsePath p)) ∧
    (parsePath p).parts.count ".." = (splitSlash p).count ".." := by
  constructor
  · simp [validate_path, habs]
  · show (parseParts p).count ".." = (splitSlash p).count ".."
    unfold parseParts
    exact List.count_filter (by decide)

/-- Claim C10 (witness). -/
theorem validate_path_absolute_unresolved_witness :
    (validate_path ⟨"/", ["a"]⟩ "/a/../b" =
      (if ¬ pyStartsWith (pathToStr (parsePath "/a/../b"))
          (pathToStr ⟨"/", ["a"]⟩) then
        Except.error ("Invalid path: Access denied. Path must be within " ++
          pathToStr ⟨"/", ["a"]⟩)
      else Except.ok (parsePath "/a/../b")) ∧
    (parsePath "/a/../b").parts.count ".." =
      (splitSlash "/a/../b").count "..") :=
  validate_path_absolute_unresolved ⟨"/", ["a"]⟩ "/a/../b" rfl
